import Mathlib

/-
  Verification of the finnhub-mcp server (src/index.ts, src/finnhub-client.ts,
  src/types.ts) against its natural-language specification.

  The TypeScript code is shallowly embedded: JS numbers are modelled as
  rationals (the claims under study concern zero tests, null guards and
  exact derived values, never float rounding), nullable/optional JS values
  as Option, and the upstream HTTP layer as an explicit response argument
  (or a fetch oracle for the per-symbol fan-out).  JS falsiness on strings
  and numbers (empty string, zero) is modelled explicitly by the jsOr
  helpers.  Each FinnhubClient method becomes a pure function of its
  arguments and the upstream response it would receive.
-/

/-! ## Dates

  Model of the JavaScript Date values produced by the client: a date-only
  string parses (per the ISO date-only form, interpreted at UTC) to a
  calendar date, addDays mirrors result.setDate(result.getDate() + days)
  with its overflow normalization, and formatDate mirrors
  date.toISOString().split("T")[0]. -/

structure Date where
  year : Nat
  month : Nat
  day : Nat
deriving DecidableEq

def isLeapYear (y : Nat) : Bool :=
  y % 4 == 0 && (y % 100 != 0 || y % 400 == 0)

def daysInMonth (y m : Nat) : Nat :=
  if m = 2 then (if isLeapYear y then 29 else 28)
  else if m = 4 || m = 6 || m = 9 || m = 11 then 30
  else 31

def ValidDate (x : Date) : Prop :=
  1 ≤ x.month ∧ x.month ≤ 12 ∧ 1 ≤ x.day ∧ x.day ≤ daysInMonth x.year x.month

instance (x : Date) : Decidable (ValidDate x) := by
  unfold ValidDate; infer_instance

/-- Normalization performed by JS Date.setDate when the day-of-month
    overflows the current month: roll the excess into following months,
    crossing the year boundary after December. -/
def rollForward (y m day : Nat) : Date :=
  if day ≤ daysInMonth y m then ⟨y, m, day⟩
  else if m = 12 then rollForward (y + 1) 1 (day - daysInMonth y m)
  else rollForward y (m + 1) (day - daysInMonth y m)
termination_by day
decreasing_by
  all_goals
    have hpos : 0 < daysInMonth y m := by
      unfold daysInMonth; split_ifs <;> omega
    omega

/-- FinnhubClient.addDays: result.setDate(result.getDate() + days). -/
def addDays (date : Date) (days : Nat) : Date :=
  rollForward date.year date.month (date.day + days)

/-- Calendar-arithmetic successor of a date (the specification-side notion
    used to state that addDays performs calendar arithmetic across month
    and year boundaries, rather than any fixed-width arithmetic). -/
def calendarNextDay (x : Date) : Date :=
  if x.day + 1 ≤ daysInMonth x.year x.month then ⟨x.year, x.month, x.day + 1⟩
  else if x.month = 12 then ⟨x.year + 1, 1, 1⟩
  else ⟨x.year, x.month + 1, 1⟩

def padToTwo (n : Nat) : String :=
  (if n < 10 then "0" else "") ++ toString n

def padToFour (n : Nat) : String :=
  (if n < 10 then "000" else if n < 100 then "00" else if n < 1000 then "0" else "") ++ toString n

/-- FinnhubClient.formatDate: date.toISOString().split("T")[0], the
    YYYY-MM-DD rendering of a (UTC) date. -/
def formatDate (x : Date) : String :=
  padToFour x.year ++ "-" ++ padToTwo x.month ++ "-" ++ padToTwo x.day

def digitsToNat (c : Char) : Nat := c.toNat - 48

def parseYear (y1 y2 y3 y4 : Char) : Nat :=
  ((digitsToNat y1 * 10 + digitsToNat y2) * 10 + digitsToNat y3) * 10 + digitsToNat y4

def parseTwo (c1 c2 : Char) : Nat := digitsToNat c1 * 10 + digitsToNat c2

/-- new Date(s) on a YYYY-MM-DD string: parses the ISO date-only form at
    UTC, yielding an invalid date (None) when the shape or the component
    ranges are wrong. -/
def parseDate (s : String) : Option Date :=
  match s.data with
  | [y1, y2, y3, y4, '-', m1, m2, '-', d1, d2] =>
    if y1.isDigit && y2.isDigit && y3.isDigit && y4.isDigit &&
       m1.isDigit && m2.isDigit && d1.isDigit && d2.isDigit then
      if 1 ≤ parseTwo m1 m2 ∧ parseTwo m1 m2 ≤ 12 ∧ 1 ≤ parseTwo d1 d2 ∧
         parseTwo d1 d2 ≤ daysInMonth (parseYear y1 y2 y3 y4) (parseTwo m1 m2) then
        some ⟨parseYear y1 y2 y3 y4, parseTwo m1 m2, parseTwo d1 d2⟩
      else none
    else none
  | _ => none

/-! ## JS truthiness helpers -/

/-- JS `a || b` where a is a possibly-absent string: the empty string is
    falsy and falls through to the default. -/
def jsOrStr (o : Option String) (dflt : String) : String :=
  match o with
  | some s => if s = "" then dflt else s
  | none => dflt

/-- JS `a || b` where a is a possibly-absent number: zero is falsy and
    falls through to the default. -/
def jsOrRat (o : Option Rat) (dflt : Rat) : Rat :=
  match o with
  | some x => if x = 0 then dflt else x
  | none => dflt

/-- JS `a || b` on a possibly-absent count. -/
def jsOrNat (o : Option Nat) (dflt : Nat) : Nat :=
  match o with
  | some n => if n = 0 then dflt else n
  | none => dflt

/-! ## Tool argument records (types.ts) -/

structure EarningsCalendarArgs where
  from_ : Option String
  to_ : Option String
  symbol : Option String

structure QuoteArgs where
  symbols : List String

structure NewsArgs where
  symbol : String
  from_ : String
  to_ : String

structure StockProfileArgs where
  symbol : String

structure OptionsChainArgs where
  symbol : String
  expirationDate : Option String

/-- The untyped argument bag delivered by the transport before schema
    validation: each schema-relevant key is either present (with the
    JS-level type the schemas expect) or absent. -/
structure RawBag where
  from_ : Option String
  to_ : Option String
  symbol : Option String
  symbols : Option (List String)
  expirationDate : Option String

/-! ## Raw and normalized data records (types.ts) -/

structure EarningsAnnouncement where
  date : String
  symbol : String
  epsActual : Option Rat
  epsEstimate : Option Rat
  hour : String
  quarter : Nat
  revenueActual : Option Rat
  revenueEstimate : Option Rat
  year : Nat

structure EarningsCalendarResponse where
  earningsCalendar : Option (List EarningsAnnouncement)

structure EarningsFigures where
  estimate : Option Rat
  actual : Option Rat
  surprise : Option Rat
  surprisePercent : Option Rat

structure NormalizedEarnings where
  date : String
  symbol : String
  quarter : String
  fiscalYear : Nat
  time : String
  eps : EarningsFigures
  revenue : EarningsFigures

structure FinnhubQuote where
  c : Rat
  d : Option Rat
  dp : Option Rat
  h : Rat
  l : Rat
  o : Rat
  pc : Rat
  t : Int

structure NormalizedQuote where
  symbol : String
  currentPrice : Rat
  change : Rat
  percentChange : Rat
  high : Rat
  low : Rat
  open_ : Rat
  previousClose : Rat
  timestamp : Int

structure FinnhubNews where
  category : String
  datetime : Int
  headine : String
  id : Int
  image : String
  related : String
  source : String
  summary : String
  url : String

structure NormalizedNews where
  headline : String
  summary : String
  source : String
  url : String
  datetime : Int
  image : String
  related : String
  category : String

structure FinnhubProfile where
  address : Option String
  city : Option String
  country : Option String
  currency : Option String
  exchange : Option String
  ipo : Option String
  logo : Option String
  marketCapitalization : Option Rat
  name : Option String
  phone : Option String
  shareOutstanding : Option Rat
  ticker : Option String
  weburl : Option String
  logo_url : Option String
  industry : Option String
  description : Option String
  employees : Option Rat
  sector : Option String
  phoneNumber : Option String
  state : Option String
  countryCode : Option String
  ipoDate : Option String
  finnhubIndustry : Option String

structure NormalizedProfile where
  name : String
  ticker : String
  exchange : String
  industry : String
  weburl : String
  logo : String
  description : String
  marketCap : Rat
  sharesOutstanding : Rat
  ipoDate : String
  currency : String
  country : String
  phone : String

structure FinnhubOptionContract where
  contractName : String
  contractSize : Rat
  contractPeriod : String
  currency : String
  type : String
  inTheMoney : Bool
  lastTradeDateTime : String
  expirationDate : String
  strike : Rat
  lastPrice : Rat
  bid : Rat
  ask : Rat
  change : Rat
  changePercent : Rat
  volume : Rat
  openInterest : Rat
  impliedVolatility : Rat
  delta : Option Rat
  gamma : Option Rat
  theta : Option Rat
  vega : Option Rat
  rho : Option Rat
  theoretical : Rat
  intrinsicValue : Rat
  timeValue : Rat
  updatedAt : String
  daysBeforeExpiration : Rat

structure OptionGreeks where
  delta : Option Rat
  gamma : Option Rat
  theta : Option Rat
  rho : Option Rat
  vega : Option Rat

structure NormalizedOption where
  contractName : String
  strike : Rat
  expirationDate : String
  type : String
  bid : Option Rat
  ask : Option Rat
  last : Option Rat
  openInterest : Rat
  volume : Rat
  impliedVolatility : Rat
  greeks : OptionGreeks

structure OptionBuckets where
  CALL : Option (List FinnhubOptionContract)
  PUT : Option (List FinnhubOptionContract)

structure FinnhubOptionsChainDataItem where
  expirationDate : String
  impliedVolatility : Option Rat
  putVolume : Option Rat
  callVolume : Option Rat
  putCallVolumeRatio : Option Rat
  putOpenInterest : Option Rat
  callOpenInterest : Option Rat
  putCallOpenInterestRatio : Option Rat
  optionsCount : Option Nat
  options : OptionBuckets

structure FinnhubOptionsChain where
  code : String
  exchange : String
  lastTradeDate : String
  lastTradePrice : Rat
  data : Option (List FinnhubOptionsChainDataItem)

structure ExpirationDateSummary where
  expirationDate : String
  optionsCount : Nat
  putVolume : Rat
  callVolume : Rat
  putOpenInterest : Rat
  callOpenInterest : Rat
  impliedVolatility : Rat

structure AvailableExpirationsResponse where
  availableExpirationDates : List ExpirationDateSummary
  totalExpirations : Nat

structure NormalizedOptionsChain where
  options : List NormalizedOption
  expirationDate : String

structure EarningsCalendarResult where
  data : List NormalizedEarnings
  count : Nat
  dateRange : String × String

structure NewsResult where
  news : List NormalizedNews
  count : Nat

/-! ## Field normalizers (finnhub-client.ts) -/

/-- FinnhubClient.normalizeEarnings. -/
def normalizeEarnings (item : EarningsAnnouncement) : NormalizedEarnings :=
  let epsSurprise : Option Rat :=
    match item.epsActual, item.epsEstimate with
    | some actual, some estimate => some (actual - estimate)
    | _, _ => none
  let epsSurprisePercent : Option Rat :=
    match epsSurprise, item.epsEstimate with
    | some surprise, some estimate =>
      if estimate ≠ 0 then some (surprise / estimate * 100) else none
    | _, _ => none
  let revenueSurprise : Option Rat :=
    match item.revenueActual, item.revenueEstimate with
    | some actual, some estimate => some (actual - estimate)
    | _, _ => none
  let revenueSurprisePercent : Option Rat :=
    match revenueSurprise, item.revenueEstimate with
    | some surprise, some estimate =>
      if estimate ≠ 0 then some (surprise / estimate * 100) else none
    | _, _ => none
  { date := item.date
    symbol := item.symbol
    quarter := "Q" ++ toString item.quarter
    fiscalYear := item.year
    time := if item.hour = "" then "unknown" else item.hour
    eps := { estimate := item.epsEstimate, actual := item.epsActual,
             surprise := epsSurprise, surprisePercent := epsSurprisePercent }
    revenue := { estimate := item.revenueEstimate, actual := item.revenueActual,
                 surprise := revenueSurprise, surprisePercent := revenueSurprisePercent } }

/-- FinnhubClient.normalizeQuote. -/
def normalizeQuote (symbol : String) (quote : FinnhubQuote) : NormalizedQuote :=
  { symbol := symbol
    currentPrice := quote.c
    change := quote.d.getD 0
    percentChange := quote.dp.getD 0
    high := quote.h
    low := quote.l
    open_ := quote.o
    previousClose := quote.pc
    timestamp := quote.t }

/-- FinnhubClient.normalizeNews (note the provider's misspelled headine field). -/
def normalizeNews (news : FinnhubNews) : NormalizedNews :=
  { headline := news.headine
    summary := news.summary
    source := news.source
    url := news.url
    datetime := news.datetime
    image := news.image
    related := news.related
    category := news.category }

/-- FinnhubClient.normalizeProfile. -/
def normalizeProfile (profile : FinnhubProfile) : NormalizedProfile :=
  { name := jsOrStr profile.name ""
    ticker := jsOrStr profile.ticker ""
    exchange := jsOrStr profile.exchange ""
    industry := jsOrStr profile.finnhubIndustry (jsOrStr profile.industry "")
    weburl := jsOrStr profile.weburl ""
    logo := jsOrStr profile.logo (jsOrStr profile.logo_url "")
    description := jsOrStr profile.description ""
    marketCap := jsOrRat profile.marketCapitalization 0
    sharesOutstanding := jsOrRat profile.shareOutstanding 0
    ipoDate := jsOrStr profile.ipo (jsOrStr profile.ipoDate "")
    currency := jsOrStr profile.currency ""
    country := jsOrStr profile.country ""
    phone := jsOrStr profile.phone (jsOrStr profile.phoneNumber "") }

/-- FinnhubClient.normalizeOptionContract: bid/ask/last are null-guarded
    with JS falsiness (zero means no quote), each Greek independently
    null-coalesced with JS question-question (only absence becomes null). -/
def normalizeOptionContract (opt : FinnhubOptionContract) (type : String) : NormalizedOption :=
  { contractName := opt.contractName
    strike := opt.strike
    expirationDate := opt.expirationDate
    type := type
    bid := if opt.bid = 0 then none else some opt.bid
    ask := if opt.ask = 0 then none else some opt.ask
    last := if opt.lastPrice = 0 then none else some opt.lastPrice
    openInterest := opt.openInterest
    volume := opt.volume
    impliedVolatility := opt.impliedVolatility
    greeks := { delta := opt.delta, gamma := opt.gamma, theta := opt.theta,
                rho := opt.rho, vega := opt.vega } }

/-! ## Operation orchestrators (finnhub-client.ts)

  Each method is embedded as a pure function of its arguments and the
  upstream response(s) it would receive; today stands for new Date().
  getEarningsCalendar returns None exactly when the JS code would throw
  (toISOString on an invalid date built from the from string). -/

/-- FinnhubClient.getEarningsCalendar. -/
def getEarningsCalendar (args : EarningsCalendarArgs) (today : Date)
    (response : EarningsCalendarResponse) : Option EarningsCalendarResult :=
  let from_ := jsOrStr args.from_ (formatDate today)
  let computedTo := (parseDate from_).map fun x => formatDate (addDays x 7)
  let to_? : Option String :=
    match args.to_ with
    | some t => if t = "" then computedTo else some t
    | none => computedTo
  to_?.map fun to_ =>
    let normalized := (response.earningsCalendar.getD []).map normalizeEarnings
    { data := normalized, count := normalized.length, dateRange := (from_, to_) }

/-- FinnhubClient.getQuotes: per-symbol fan-out in request order, keeping a
    quote only when previousClose or currentPrice is non-zero.  The fetch
    oracle stands for the per-symbol upstream responses. -/
def getQuotes (fetch : String → FinnhubQuote) : List String → List NormalizedQuote
  | [] => []
  | symbol :: rest =>
    let upperSymbol := symbol.toUpper
    let response := fetch upperSymbol
    if response.pc ≠ 0 ∨ response.c ≠ 0 then
      normalizeQuote upperSymbol response :: getQuotes fetch rest
    else
      getQuotes fetch rest

/-- FinnhubClient.getNews. -/
def getNews (args : NewsArgs) (response : List FinnhubNews) : NewsResult :=
  let news := response.map normalizeNews
  { news := news, count := news.length }

/-- FinnhubClient.getStockProfile: an empty (or missing) ticker yields the
    soft not-found payload profile: null, modelled as none. -/
def getStockProfile (response : FinnhubProfile) : Option NormalizedProfile :=
  if jsOrStr response.ticker "" = "" then none
  else some (normalizeProfile response)

/-- The contract-flattening loop of FinnhubClient.getOptionsChain: for each
    expiration bucket, push every CALL contract tagged call, then every PUT
    contract tagged put. -/
def flattenOptionBuckets : List FinnhubOptionsChainDataItem → List NormalizedOption
  | [] => []
  | item :: rest =>
    ((item.options.CALL.getD []).map fun opt => normalizeOptionContract opt "call") ++
    ((item.options.PUT.getD []).map fun opt => normalizeOptionContract opt "put") ++
    flattenOptionBuckets rest

/-- FinnhubClient.getOptionsChain (expirationDate given). -/
def getOptionsChain (expirationDate : String) (response : FinnhubOptionsChain) :
    NormalizedOptionsChain :=
  { options := flattenOptionBuckets (response.data.getD [])
    expirationDate := expirationDate }

/-- FinnhubClient.getAvailableExpirations (expirationDate omitted). -/
def getAvailableExpirations (response : FinnhubOptionsChain) : AvailableExpirationsResponse :=
  let expirations := (response.data.getD []).map fun item =>
    { expirationDate := item.expirationDate
      optionsCount := jsOrNat item.optionsCount
        ((item.options.CALL.map List.length).getD 0 + (item.options.PUT.map List.length).getD 0)
      putVolume := jsOrRat item.putVolume 0
      callVolume := jsOrRat item.callVolume 0
      putOpenInterest := jsOrRat item.putOpenInterest 0
      callOpenInterest := jsOrRat item.callOpenInterest 0
      impliedVolatility := jsOrRat item.impliedVolatility 0 : ExpirationDateSummary }
  { availableExpirationDates := expirations, totalExpirations := expirations.length }

def bucketCallCount (item : FinnhubOptionsChainDataItem) : Nat :=
  (item.options.CALL.getD []).length

def bucketPutCount (item : FinnhubOptionsChainDataItem) : Nat :=
  (item.options.PUT.getD []).length

/-! ## Schema validation (types.ts Zod schemas) and dispatch (index.ts) -/

/-- The regex from types.ts applied to every date argument. -/
def dateFormatOk (s : String) : Bool :=
  match s.data with
  | [a1, a2, a3, a4, b1, a5, a6, b2, a7, a8] =>
    a1.isDigit && a2.isDigit && a3.isDigit && a4.isDigit && b1 == '-' &&
    a5.isDigit && a6.isDigit && b2 == '-' && a7.isDigit && a8.isDigit
  | _ => false

/-- EarningsCalendarArgsSchema.safeParse. -/
def validateEarningsCalendarArgs (bag : RawBag) : Except String EarningsCalendarArgs :=
  if !(bag.from_.all dateFormatOk) then .error "Date must be in YYYY-MM-DD format"
  else if !(bag.to_.all dateFormatOk) then .error "Date must be in YYYY-MM-DD format"
  else if !(bag.symbol.all fun s => decide (1 ≤ s.length)) then
    .error "String must contain at least 1 character(s)"
  else if !(bag.symbol.all fun s => decide (s.length ≤ 10)) then
    .error "String must contain at most 10 character(s)"
  else .ok { from_ := bag.from_, to_ := bag.to_, symbol := bag.symbol }

/-- QuoteArgsSchema.safeParse. -/
def validateQuoteArgs (bag : RawBag) : Except String QuoteArgs :=
  match bag.symbols with
  | none => .error "Required"
  | some symbols =>
    if !(symbols.all fun s => decide (1 ≤ s.length)) then
      .error "String must contain at least 1 character(s)"
    else if !(symbols.all fun s => decide (s.length ≤ 10)) then
      .error "String must contain at most 10 character(s)"
    else if !(decide (1 ≤ symbols.length)) then
      .error "Array must contain at least 1 element(s)"
    else if !(decide (symbols.length ≤ 50)) then
      .error "Array must contain at most 50 element(s)"
    else .ok { symbols := symbols }

/-- NewsArgsSchema.safeParse. -/
def validateNewsArgs (bag : RawBag) : Except String NewsArgs :=
  match bag.symbol with
  | none => .error "Required"
  | some symbol =>
    if !(decide (1 ≤ symbol.length)) then .error "String must contain at least 1 character(s)"
    else if !(decide (symbol.length ≤ 10)) then .error "String must contain at most 10 character(s)"
    else match bag.from_ with
      | none => .error "Required"
      | some f =>
        if !(dateFormatOk f) then .error "Date must be in YYYY-MM-DD format"
        else match bag.to_ with
          | none => .error "Required"
          | some t =>
            if !(dateFormatOk t) then .error "Date must be in YYYY-MM-DD format"
            else .ok { symbol := symbol, from_ := f, to_ := t }

/-- StockProfileArgsSchema.safeParse. -/
def validateStockProfileArgs (bag : RawBag) : Except String StockProfileArgs :=
  match bag.symbol with
  | none => .error "Required"
  | some symbol =>
    if !(decide (1 ≤ symbol.length)) then .error "String must contain at least 1 character(s)"
    else if !(decide (symbol.length ≤ 10)) then .error "String must contain at most 10 character(s)"
    else .ok { symbol := symbol }

/-- OptionsChainArgsSchema.safeParse. -/
def validateOptionsChainArgs (bag : RawBag) : Except String OptionsChainArgs :=
  match bag.symbol with
  | none => .error "Required"
  | some symbol =>
    if !(decide (1 ≤ symbol.length)) then .error "String must contain at least 1 character(s)"
    else if !(decide (symbol.length ≤ 10)) then .error "String must contain at most 10 character(s)"
    else if !(bag.expirationDate.all dateFormatOk) then .error "Date must be in YYYY-MM-DD format"
    else .ok { symbol := symbol, expirationDate := bag.expirationDate }

def knownToolNames : List String :=
  ["finnhub.calendar.earnings", "finnhub.quote", "finnhub.news",
   "finnhub.stock.profile", "finnhub.options.chain"]

/-- The upstream operation an accepted tool call proceeds to; reaching one
    of these is the first (and only) point at which the handler contacts
    the network. -/
inductive UpstreamOp where
  | earningsCalendar (a : EarningsCalendarArgs)
  | quotes (a : QuoteArgs)
  | news (a : NewsArgs)
  | stockProfile (a : StockProfileArgs)
  | optionsChain (symbol expirationDate : String)
  | availableExpirations (symbol : String)

/-- Outcome of the pure prefix of the CallToolRequestSchema handler: either
    an error envelope returned without any network contact, or the upstream
    operation the orchestrator proceeds to invoke. -/
inductive HandlerStep where
  | reply (error : String) (message : Option String)
  | invoke (op : UpstreamOp)

/-- The CallToolRequestSchema handler of index.ts, up to its first network
    interaction: name dispatch, schema validation with the INVALID_ARGUMENT
    envelope on failure, the expirationDate mode switch for options.chain,
    and the Unknown tool envelope for unrecognized names. -/
def handleToolCall (name : String) (bag : RawBag) : HandlerStep :=
  if name = "finnhub.calendar.earnings" then
    match validateEarningsCalendarArgs bag with
    | .error m => .reply "INVALID_ARGUMENT" (some m)
    | .ok a => .invoke (.earningsCalendar a)
  else if name = "finnhub.quote" then
    match validateQuoteArgs bag with
    | .error m => .reply "INVALID_ARGUMENT" (some m)
    | .ok a => .invoke (.quotes a)
  else if name = "finnhub.news" then
    match validateNewsArgs bag with
    | .error m => .reply "INVALID_ARGUMENT" (some m)
    | .ok a => .invoke (.news a)
  else if name = "finnhub.stock.profile" then
    match validateStockProfileArgs bag with
    | .error m => .reply "INVALID_ARGUMENT" (some m)
    | .ok a => .invoke (.stockProfile a)
  else if name = "finnhub.options.chain" then
    match validateOptionsChainArgs bag with
    | .error m => .reply "INVALID_ARGUMENT" (some m)
    | .ok a =>
      match a.expirationDate with
      | some e => if e = "" then .invoke (.availableExpirations a.symbol)
                  else .invoke (.optionsChain a.symbol e)
      | none => .invoke (.availableExpirations a.symbol)
  else .reply ("Unknown tool: " ++ name) none

/-! ## Sample values used by witnesses and counterexamples -/

def emptyRawBag : RawBag :=
  { from_ := none, to_ := none, symbol := none, symbols := none, expirationDate := none }

def sampleContract : FinnhubOptionContract :=
  { contractName := "AAPL240621C00190000", contractSize := 100, contractPeriod := "MONTHLY",
    currency := "USD", type := "CALL", inTheMoney := false,
    lastTradeDateTime := "2024-06-20 15:59:01", expirationDate := "2024-06-21",
    strike := 190, lastPrice := 3, bid := 2, ask := 4, change := 0, changePercent := 0,
    volume := 10, openInterest := 100, impliedVolatility := 25,
    delta := some 0, gamma := none, theta := some 1, vega := none, rho := some 0,
    theoretical := 3, intrinsicValue := 0, timeValue := 3,
    updatedAt := "2024-06-20", daysBeforeExpiration := 1 }

def zeroCountItem : FinnhubOptionsChainDataItem :=
  { expirationDate := "2024-06-21", impliedVolatility := none, putVolume := none,
    callVolume := none, putCallVolumeRatio := none, putOpenInterest := none,
    callOpenInterest := none, putCallOpenInterestRatio := none,
    optionsCount := some 0,
    options := { CALL := some [sampleContract], PUT := some [] } }

def zeroCountChain : FinnhubOptionsChain :=
  { code := "AAPL", exchange := "US", lastTradeDate := "2024-06-20",
    lastTradePrice := 190, data := some [zeroCountItem] }

def zeroEstimateItem : EarningsAnnouncement :=
  { date := "2024-01-25", symbol := "AAPL", epsActual := some 2, epsEstimate := some 0,
    hour := "amc", quarter := 1, revenueActual := some 5, revenueEstimate := some 0,
    year := 2024 }

def emptyTickerProfile : FinnhubProfile :=
  { address := none, city := none, country := none, currency := none, exchange := none,
    ipo := none, logo := none, marketCapitalization := none, name := some "Shell Co",
    phone := none, shareOutstanding := none, ticker := some "", weburl := none,
    logo_url := none, industry := none, description := none, employees := none,
    sector := none, phoneNumber := none, state := none, countryCode := none,
    ipoDate := none, finnhubIndustry := none }

/-! ## Calendar arithmetic lemmas -/

lemma daysInMonth_pos (y m : Nat) : 0 < daysInMonth y m := by
  unfold daysInMonth; split_ifs <;> omega

lemma rollForward_eq_self {y m day : Nat} (h : day ≤ daysInMonth y m) :
    rollForward y m day = ⟨y, m, day⟩ := by
  rw [rollForward, if_pos h]

lemma validDate_mk {y m day : Nat} (h1 : 1 ≤ m) (h2 : m ≤ 12) (h3 : 1 ≤ day)
    (h4 : day ≤ daysInMonth y m) : ValidDate ⟨y, m, day⟩ :=
  ⟨h1, h2, h3, h4⟩

lemma calendarNextDay_valid {x : Date} (hx : ValidDate x) : ValidDate (calendarNextDay x) := by
  obtain ⟨h1, h2, h3, h4⟩ := hx
  unfold calendarNextDay
  split_ifs with ha hb
  · exact validDate_mk h1 h2 (by omega) ha
  · exact validDate_mk (by omega) (by omega) (by omega) (daysInMonth_pos _ _)
  · exact validDate_mk (by omega) (by omega) (by omega) (daysInMonth_pos _ _)

lemma rollForward_add_eq_iterate (k : Nat) :
    ∀ x : Date, ValidDate x →
      rollForward x.year x.month (x.day + k) = Nat.iterate calendarNextDay k x := by
  induction k with
  | zero =>
    intro x hx
    simpa using rollForward_eq_self hx.2.2.2
  | succ k ih =>
    intro x hx
    obtain ⟨h1, h2, h3, h4⟩ := hx
    rw [Function.iterate_succ_apply]
    by_cases hd : x.day + 1 ≤ daysInMonth x.year x.month
    · have hnext : calendarNextDay x = ⟨x.year, x.month, x.day + 1⟩ := by
        unfold calendarNextDay; rw [if_pos hd]
      have hstep : x.day + (k + 1) = (x.day + 1) + k := by omega
      rw [hnext, hstep]
      exact ih ⟨x.year, x.month, x.day + 1⟩ (validDate_mk h1 h2 (by omega) hd)
    · have hday : x.day = daysInMonth x.year x.month := by omega
      by_cases hm : x.month = 12
      · have hnext : calendarNextDay x = ⟨x.year + 1, 1, 1⟩ := by
          unfold calendarNextDay; rw [if_neg hd, if_pos hm]
        rw [hnext, rollForward, if_neg (by omega), if_pos hm]
        have hrest : x.day + (k + 1) - daysInMonth x.year x.month = 1 + k := by omega
        rw [hrest]
        exact ih ⟨x.year + 1, 1, 1⟩
          (validDate_mk (by omega) (by omega) (by omega) (daysInMonth_pos _ _))
      · have hnext : calendarNextDay x = ⟨x.year, x.month + 1, 1⟩ := by
          unfold calendarNextDay; rw [if_neg hd, if_neg hm]
        rw [hnext, rollForward, if_neg (by omega), if_neg hm]
        have hrest : x.day + (k + 1) - daysInMonth x.year x.month = 1 + k := by omega
        rw [hrest]
        exact ih ⟨x.year, x.month + 1, 1⟩
          (validDate_mk (by omega) (by omega) (by omega) (daysInMonth_pos _ _))

lemma addDays_eq_iterate_calendarNextDay {x : Date} (hx : ValidDate x) (k : Nat) :
    addDays x k = Nat.iterate calendarNextDay k x :=
  rollForward_add_eq_iterate k x hx

lemma parseDate_valid {s : String} {x : Date} (h : parseDate s = some x) : ValidDate x := by
  unfold parseDate at h
  split at h
  · split_ifs at h with h1 h2
    injection h with h3
    subst h3
    exact validDate_mk h2.1 h2.2.1 h2.2.2.1 h2.2.2.2
  · exact absurd h (by simp)

lemma parseDate_ne_empty {s : String} {x : Date} (h : parseDate s = some x) : s ≠ "" := by
  intro he
  rw [he] at h
  exact Option.noConfusion h

/-! ## Claims -/

/-- C1: for every earnings-calendar call whose arguments include a valid
    from date but omit to, the returned dateRange has to equal to from
    plus 7 days by calendar arithmetic (seven applications of the calendar
    successor, which crosses month and year boundaries correctly), not any
    fixed-width arithmetic. -/
theorem earningsCalendar_defaultTo_add7 (f : String) (x : Date) (symbol : Option String)
    (today : Date) (response : EarningsCalendarResponse)
    (hparse : parseDate f = some x) :
    ∃ r, getEarningsCalendar { from_ := some f, to_ := none, symbol := symbol } today response =
        some r ∧
      r.dateRange.1 = f ∧
      r.dateRange.2 = formatDate (Nat.iterate calendarNextDay 7 x) := by
  have hne : f ≠ "" := parseDate_ne_empty hparse
  have hv : ValidDate x := parseDate_valid hparse
  refine ⟨{ data := (response.earningsCalendar.getD []).map normalizeEarnings,
            count := ((response.earningsCalendar.getD []).map normalizeEarnings).length,
            dateRange := (f, formatDate (addDays x 7)) }, ?_, rfl, ?_⟩
  · simp only [getEarningsCalendar, jsOrStr, if_neg hne, hparse, Option.map_some']
  · show formatDate (addDays x 7) = formatDate (Nat.iterate calendarNextDay 7 x)
    rw [addDays_eq_iterate_calendarNextDay hv]

/-- Witness for C1 at the boundary-crossing example from the spec:
    from 2024-01-28, to defaults to 2024-02-04. -/
theorem earningsCalendar_defaultTo_add7_witness :
    ∃ r, getEarningsCalendar { from_ := some "2024-01-28", to_ := none, symbol := none }
        ⟨2024, 10, 1⟩ ⟨none⟩ = some r ∧
      r.dateRange.1 = "2024-01-28" ∧ r.dateRange.2 = "2024-02-04" := by
  obtain ⟨r, hr, h1, h2⟩ :=
    earningsCalendar_defaultTo_add7 "2024-01-28" ⟨2024, 1, 28⟩ none ⟨2024, 10, 1⟩ ⟨none⟩ (by rfl)
  refine ⟨r, hr, h1, ?_⟩
  rw [h2]
  rfl

/-- C2: a raw quote is included in the getQuotes result exactly when its
    previousClose (pc) or currentPrice (c) is non-zero — all-zero quotes
    are silently dropped rather than reported — and the included quotes
    appear in the order of the requested symbol list (filtering the
    uppercased request order preserves it). -/
theorem getQuotes_filter_preserves_order (fetch : String → FinnhubQuote)
    (symbols : List String) :
    getQuotes fetch symbols =
      ((symbols.map String.toUpper).filter fun u =>
          decide ((fetch u).pc ≠ 0 ∨ (fetch u).c ≠ 0)).map
        fun u => normalizeQuote u (fetch u) := by
  induction symbols with
  | nil => rfl
  | cons s rest ih =>
    simp only [getQuotes, List.map_cons, List.filter_cons]
    by_cases hc : (fetch s.toUpper).pc ≠ 0 ∨ (fetch s.toUpper).c ≠ 0
    · rw [if_pos hc]
      simp [hc, ih]
    · rw [if_neg hc]
      simp [hc, ih]

lemma normalizeOptionContract_type (opt : FinnhubOptionContract) (t : String) :
    (normalizeOptionContract opt t).type = t := rfl

lemma filter_type_map_length_same (l : List FinnhubOptionContract) (t : String) :
    ((l.map fun opt => normalizeOptionContract opt t).filter
        fun x => x.type == t).length = l.length := by
  induction l with
  | nil => rfl
  | cons a l ih => simp [List.filter_cons, normalizeOptionContract_type, ih]

lemma filter_type_map_length_other (l : List FinnhubOptionContract) (t u : String)
    (h : t ≠ u) :
    ((l.map fun opt => normalizeOptionContract opt t).filter
        fun x => x.type == u).length = 0 := by
  induction l with
  | nil => rfl
  | cons a l ih => simp [List.filter_cons, normalizeOptionContract_type, h, ih]

lemma flattenOptionBuckets_counts (items : List FinnhubOptionsChainDataItem) :
    (flattenOptionBuckets items).length =
        (items.map bucketCallCount).sum + (items.map bucketPutCount).sum ∧
      ((flattenOptionBuckets items).filter fun x => x.type == "call").length =
        (items.map bucketCallCount).sum ∧
      ((flattenOptionBuckets items).filter fun x => x.type == "put").length =
        (items.map bucketPutCount).sum := by
  induction items with
  | nil => exact ⟨rfl, rfl, rfl⟩
  | cons item rest ih =>
    obtain ⟨ih1, ih2, ih3⟩ := ih
    refine ⟨?_, ?_, ?_⟩
    · simp only [flattenOptionBuckets, List.length_append, List.length_map, List.map_cons,
        List.sum_cons, ih1, bucketCallCount, bucketPutCount]
      omega
    · simp only [flattenOptionBuckets, List.filter_append, List.length_append, ih2,
        filter_type_map_length_same,
        filter_type_map_length_other _ "put" "call" (by decide),
        List.map_cons, List.sum_cons, bucketCallCount]
      omega
    · simp only [flattenOptionBuckets, List.filter_append, List.length_append, ih3,
        filter_type_map_length_same,
        filter_type_map_length_other _ "call" "put" (by decide),
        List.map_cons, List.sum_cons, bucketPutCount]
      omega

/-- C3: with expirationDate set, the options chain flattens an upstream
    response with N call contracts and M put contracts (in total, across
    all buckets) into exactly N plus M entries, of which exactly N carry
    type call and exactly M carry type put. -/
theorem getOptionsChain_flatten_tagged (expirationDate : String)
    (response : FinnhubOptionsChain) :
    (getOptionsChain expirationDate response).options.length =
        ((response.data.getD []).map bucketCallCount).sum +
          ((response.data.getD []).map bucketPutCount).sum ∧
      (((getOptionsChain expirationDate response).options.filter
          fun x => x.type == "call").length =
        ((response.data.getD []).map bucketCallCount).sum) ∧
      (((getOptionsChain expirationDate response).options.filter
          fun x => x.type == "put").length =
        ((response.data.getD []).map bucketPutCount).sum) :=
  flattenOptionBuckets_counts (response.data.getD [])

/-- Counterexample for C4 as stated: the provider explicitly reports
    optionsCount 0 on a bucket holding one call contract, yet the summary
    reports the derived count 1, not the explicit 0 — the JS fallback
    treats an explicit zero as absent. -/
theorem availableExpirations_explicitZero_counterexample :
    zeroCountItem.optionsCount = some 0 ∧
      ((getAvailableExpirations zeroCountChain).availableExpirationDates.map
          fun e => e.optionsCount) = [1] ∧
      [1] ≠ [0] := by
  refine ⟨rfl, rfl, by decide⟩

/-- C4 (amended): with expirationDate unset, totalExpirations equals the
    number of expiration buckets in the upstream response, and each
    bucket's optionsCount equals the provider's explicit optionsCount when
    that count is given and non-zero, otherwise (absent or zero) the
    derived sum of the bucket's call-contract and put-contract counts. -/
theorem availableExpirations_counts (response : FinnhubOptionsChain) :
    (getAvailableExpirations response).totalExpirations =
        (response.data.getD []).length ∧
      ((getAvailableExpirations response).availableExpirationDates.map
          fun e => e.optionsCount) =
        (response.data.getD []).map fun item =>
          match item.optionsCount with
          | some n => if n = 0 then bucketCallCount item + bucketPutCount item else n
          | none => bucketCallCount item + bucketPutCount item := by
  constructor
  · simp [getAvailableExpirations]
  · simp only [getAvailableExpirations, List.map_map]
    apply List.map_congr_left
    intro item _
    simp only [Function.comp_apply, jsOrNat, bucketCallCount, bucketPutCount]
    cases item.options.CALL <;> cases item.options.PUT <;>
      cases item.optionsCount <;> simp [Option.getD]

/-- C5: whenever epsEstimate is zero, the normalized eps surprisePercent is
    null even if epsActual is present, and the identical division-by-zero
    guard applies to the revenue surprisePercent when revenueEstimate is
    zero. -/
theorem normalizeEarnings_zeroEstimate_nullPercent (item : EarningsAnnouncement) :
    (item.epsEstimate = some 0 →
        (normalizeEarnings item).eps.surprisePercent = none) ∧
      (item.revenueEstimate = some 0 →
        (normalizeEarnings item).revenue.surprisePercent = none) := by
  constructor
  · intro h
    cases ha : item.epsActual <;> simp [normalizeEarnings, h, ha]
  · intro h
    cases ha : item.revenueActual <;> simp [normalizeEarnings, h, ha]

/-- Witness for C5 at a record whose eps and revenue estimates are zero
    while both actuals are present. -/
theorem normalizeEarnings_zeroEstimate_nullPercent_witness :
    (normalizeEarnings zeroEstimateItem).eps.surprisePercent = none ∧
      (normalizeEarnings zeroEstimateItem).revenue.surprisePercent = none :=
  ⟨(normalizeEarnings_zeroEstimate_nullPercent zeroEstimateItem).1 rfl,
   (normalizeEarnings_zeroEstimate_nullPercent zeroEstimateItem).2 rfl⟩

/-- C6: a profile response whose ticker field is empty or missing yields
    the soft not-found payload (profile: null, modelled as none), not an
    error. -/
theorem getStockProfile_emptyTicker_null (response : FinnhubProfile)
    (h : response.ticker = none ∨ response.ticker = some "") :
    getStockProfile response = none := by
  rcases h with h | h <;> simp [getStockProfile, jsOrStr, h]

/-- Witness for C6 at a profile response carrying an empty ticker. -/
theorem getStockProfile_emptyTicker_null_witness :
    getStockProfile emptyTickerProfile = none :=
  getStockProfile_emptyTicker_null emptyTickerProfile (Or.inr rfl)

/-- C7: any tool name outside the five recognized operations makes the
    handler return the error envelope Unknown tool: name immediately; the
    result is a reply, not an invoke, so no upstream network call is ever
    reached. -/
theorem handleToolCall_unknownTool (name : String) (bag : RawBag)
    (h : name ∉ knownToolNames) :
    handleToolCall name bag = .reply ("Unknown tool: " ++ name) none := by
  simp only [knownToolNames, List.mem_cons, List.not_mem_nil, or_false, not_or] at h
  obtain ⟨h1, h2, h3, h4, h5⟩ := h
  rw [handleToolCall, if_neg h1, if_neg h2, if_neg h3, if_neg h4, if_neg h5]

/-- Witness for C7 at an unrecognized tool name. -/
theorem handleToolCall_unknownTool_witness :
    handleToolCall "finnhub.bogus" emptyRawBag =
      .reply ("Unknown tool: " ++ "finnhub.bogus") none :=
  handleToolCall_unknownTool "finnhub.bogus" emptyRawBag (by decide)

/-- C8: for each of the five tools, an argument bag the tool's schema
    rejects (date pattern, length or array-size bounds, or a missing
    required field) makes the handler return the reportable
    INVALID_ARGUMENT envelope carrying the validation message; the
    handler's pure prefix returns a reply rather than reaching an invoke,
    so no upstream network call is made and nothing is thrown. -/
theorem handleToolCall_invalidArgs (bag : RawBag) (m : String) :
    (validateEarningsCalendarArgs bag = .error m →
        handleToolCall "finnhub.calendar.earnings" bag =
          .reply "INVALID_ARGUMENT" (some m)) ∧
      (validateQuoteArgs bag = .error m →
        handleToolCall "finnhub.quote" bag = .reply "INVALID_ARGUMENT" (some m)) ∧
      (validateNewsArgs bag = .error m →
        handleToolCall "finnhub.news" bag = .reply "INVALID_ARGUMENT" (some m)) ∧
      (validateStockProfileArgs bag = .error m →
        handleToolCall "finnhub.stock.profile" bag = .reply "INVALID_ARGUMENT" (some m)) ∧
      (validateOptionsChainArgs bag = .error m →
        handleToolCall "finnhub.options.chain" bag = .reply "INVALID_ARGUMENT" (some m)) := by
  refine ⟨?_, ?_, ?_, ?_, ?_⟩ <;> intro h <;> simp [handleToolCall, h]

/-- Witness for C8: the news tool rejects the empty argument bag (missing
    required symbol) with the INVALID_ARGUMENT envelope. -/
theorem handleToolCall_invalidArgs_witness :
    validateNewsArgs emptyRawBag = .error "Required" ∧
      handleToolCall "finnhub.news" emptyRawBag = .reply "INVALID_ARGUMENT" (some "Required") :=
  ⟨rfl, (handleToolCall_invalidArgs emptyRawBag "Required").2.2.1 rfl⟩

/-- C9: in a normalized option contract, bid and ask are null exactly when
    the raw value is falsy (zero means no quote, with the non-zero value
    otherwise preserved), and each of the five Greeks is copied through
    independently — absence of one Greek yields null for that Greek alone,
    and a raw Greek of zero is preserved as zero, never nulled. -/
theorem normalizeOptionContract_nullability (opt : FinnhubOptionContract) (t : String) :
    ((normalizeOptionContract opt t).bid = none ↔ opt.bid = 0) ∧
      ((normalizeOptionContract opt t).bid = if opt.bid = 0 then none else some opt.bid) ∧
      ((normalizeOptionContract opt t).ask = none ↔ opt.ask = 0) ∧
      ((normalizeOptionContract opt t).ask = if opt.ask = 0 then none else some opt.ask) ∧
      (normalizeOptionContract opt t).greeks.delta = opt.delta ∧
      (normalizeOptionContract opt t).greeks.gamma = opt.gamma ∧
      (normalizeOptionContract opt t).greeks.theta = opt.theta ∧
      (normalizeOptionContract opt t).greeks.rho = opt.rho ∧
      (normalizeOptionContract opt t).greeks.vega = opt.vega := by
  refine ⟨?_, rfl, ?_, rfl, rfl, rfl, rfl, rfl, rfl⟩ <;>
    · simp only [normalizeOptionContract]
      split <;> simp_all

/-- C10: the count field returned by the earnings-calendar and news
    operations always equals the length of the returned data
    (respectively news) array, and an upstream earnings response whose
    earningsCalendar field is missing or null yields an empty data array
    with count 0 rather than a failure. -/
theorem result_count_matches_length :
    (∀ (args : EarningsCalendarArgs) (today : Date) (response : EarningsCalendarResponse)
        (r : EarningsCalendarResult),
      getEarningsCalendar args today response = some r →
        r.count = r.data.length ∧
          (response.earningsCalendar = none → r.data = [] ∧ r.count = 0)) ∧
      (∀ (args : NewsArgs) (response : List FinnhubNews),
        (getNews args response).count = (getNews args response).news.length) := by
  constructor
  · intro args today response r h
    simp only [getEarningsCalendar, Option.map_eq_some'] at h
    obtain ⟨t, ht, hr⟩ := h
    subst hr
    refine ⟨rfl, fun hec => ?_⟩
    simp [hec]
  · intro args response
    rfl

/-- Witness for C10: a call with both dates supplied and a null
    earningsCalendar field in the upstream response produces count 0 and an
    empty data array. -/
theorem result_count_matches_length_witness :
    ∃ r, getEarningsCalendar ⟨some "2024-01-01", some "2024-01-08", none⟩
        ⟨2024, 1, 1⟩ ⟨none⟩ = some r ∧
      r.count = r.data.length ∧ r.data = [] ∧ r.count = 0 := by
  have hcall : getEarningsCalendar ⟨some "2024-01-01", some "2024-01-08", none⟩
      ⟨2024, 1, 1⟩ ⟨none⟩ =
      some ⟨[], 0, ("2024-01-01", "2024-01-08")⟩ := by rfl
  have hmain := (result_count_matches_length.1 _ _ _ _ hcall).2 rfl
  exact ⟨_, hcall, (result_count_matches_length.1 _ _ _ _ hcall).1, hmain.1, hmain.2⟩
